import Mathlib

/-!
Verification of the multi-agent orchestration core of the `agentic-ecosystem`
repository: a shallow embedding of `src/models/__init__.py`,
`src/orchestrator/orchestrator_agent.py`, `src/agents/base_agent.py` and
`src/utils/message_broker.py`, together with theorems settling the frozen
claims about the message broker, the agent processing loop and the
orchestrator workflow state machine.

Modelling conventions:
* Python `float` completion percentages are modelled as `ℚ`; the source only
  ever assigns and compares the exact literals 0.0, 20.0, 30.0, 60.0, 70.0,
  85.0 and 100.0, so this is exact.
* `datetime` timestamps (`Message.timestamp`, `ProjectStatus.last_updated`)
  are not modelled: no verified property depends on wall-clock time.
* Python dictionaries are modelled as association lists with `alist_find` /
  `alist_upsert`; in-place mutation of a stored object becomes replacement of
  the stored value at the same key.
* Freshly generated `uuid.uuid4()` identifiers on outgoing messages are
  modelled by the placeholder string `"uuid"`; no property depends on them.
* Multi-line Python f-strings are reproduced with their whitespace condensed;
  no verified property depends on exact formatting.
* Effects of a handler are made explicit: a step returns the new orchestrator
  state together with the list of messages successfully published to the
  broker and the list of user notifications emitted by `_notify_user`.
* Exceptions are modelled explicitly.  `BaseAgent.send_message` publishes via
  `self.message_broker.publish`, an attribute `class MessageBroker` does not
  define (it defines `publish_message`); Python therefore raises
  `AttributeError` at every send, before anything is enqueued
  (`broker_publish_missing`).  The embedding reproduces this: every send site
  takes the source's exception path and an agent never successfully publishes
  anything, so the `sent` component of a step is always empty.  The broker's
  own API (`publish_message`, delivery) is modelled directly and exercised at
  that interface.  The LLM collaborator `query_llm` may raise (environment
  field `llm` returning `none`).  Leading underscores of Python method names
  are dropped.
-/

/-- `AgentType` enumeration from `src/models/__init__.py`. -/
inductive AgentType where
  | BA
  | ARCHITECT
  | DEVELOPER
  | TESTER
  | ORCHESTRATOR
deriving DecidableEq, Repr

/-- String value of an `AgentType` (the Python enum is a `str` enum). -/
def AgentType.value : AgentType → String
  | .BA => "ba"
  | .ARCHITECT => "architect"
  | .DEVELOPER => "developer"
  | .TESTER => "tester"
  | .ORCHESTRATOR => "orchestrator"

/-- `MessageType` enumeration from `src/models/__init__.py`. -/
inductive MessageType where
  | SPECIFICATION
  | QUERY
  | RESPONSE
  | APPROVAL
  | ARTIFACT
  | ERROR
  | STATUS
deriving DecidableEq, Repr

/-- String value of a `MessageType`. -/
def MessageType.value : MessageType → String
  | .SPECIFICATION => "specification"
  | .QUERY => "query"
  | .RESPONSE => "response"
  | .APPROVAL => "approval"
  | .ARTIFACT => "artifact"
  | .ERROR => "error"
  | .STATUS => "status"

/-- `Priority` enumeration from `src/models/__init__.py`. -/
inductive Priority where
  | LOW
  | MEDIUM
  | HIGH
  | CRITICAL
deriving DecidableEq, Repr

/-- The metadata dictionary of a `Message`, restricted to the keys the
orchestration core reads or writes (`metadata.get(...)` with its Python
defaults: a missing boolean key reads as `False`, a missing string key as
`None`). -/
structure Metadata where
  phase : Option String := none
  qa_signoff : Bool := false
  resolved : Bool := false
  pending_clarification : Bool := false
  clarification_type : Option String := none
  clarification_response : Bool := false
  original_requester : Option AgentType := none
  user_clarification : Bool := false
  original_query_id : Option String := none
  recovery_attempt : Bool := false
  original_error : Option String := none
  initiated_by : Option String := none
  orchestrator_id : Option String := none
  workflow_restart : Bool := false
  original_message_id : Option String := none
deriving DecidableEq, Repr

/-- `Message` model from `src/models/__init__.py` (timestamp omitted). -/
structure Message where
  id : String
  from_agent : AgentType
  to_agent : AgentType
  message_type : MessageType
  content : String
  metadata : Metadata := {}
  project_id : String
  priority : Priority := .MEDIUM
deriving DecidableEq, Repr

/-- `ProjectSpecification` model, restricted to the fields the orchestrator
populates (`requirements`, `constraints`, `deadline` keep their defaults and
are never read). -/
structure ProjectSpecification where
  id : String
  title : String
  description : String
  domain : String
deriving DecidableEq, Repr

/-- `ProjectStatus` model from `src/models/__init__.py`
(`last_updated` omitted). -/
structure ProjectStatus where
  project_id : String
  current_phase : String
  completion_percentage : ℚ
  active_agents : List AgentType
  issues : List String := []
  next_actions : List String := []
deriving DecidableEq, Repr

/-- Association-list lookup, modelling Python `dict` indexing / `dict.get`. -/
def alist_find {α : Type} (k : String) : List (String × α) → Option α
  | [] => none
  | (k2, v) :: rest => if k2 = k then some v else alist_find k rest

/-- Association-list insert-or-replace, modelling `d[k] = v`. -/
def alist_upsert {α : Type} (k : String) (v : α) : List (String × α) → List (String × α)
  | [] => [(k, v)]
  | (k2, v2) :: rest =>
      if k2 = k then (k, v) :: rest else (k2, v2) :: alist_upsert k v rest

/-- The orchestrator's mutable registries
(`OrchestratorAgent.__init__`): projects, per-project statuses and the
per-project workflow history log. -/
structure OrchestratorState where
  projects : List (String × ProjectSpecification) := []
  project_statuses : List (String × ProjectStatus) := []
  workflow_history : List (String × List Message) := []
deriving DecidableEq, Repr

/-- The method names `class MessageBroker` defines
(`src/utils/message_broker.py`); `publish` is not among them. -/
def message_broker_methods : List String :=
  ["connect", "disconnect", "publish_message", "subscribe", "unsubscribe",
   "_process_messages", "get_agent_topic", "get_broadcast_topic"]

/-- Whether `self.message_broker.publish` — the attribute
`BaseAgent.send_message` calls — resolves on `MessageBroker`.  It does not,
so every send raises `AttributeError` at the publish. -/
def broker_publish_exists : Bool := message_broker_methods.contains "publish"

/-- `str(e)` of the `AttributeError` Python raises when
`BaseAgent.send_message` evaluates `self.message_broker.publish`. -/
def publish_attribute_error : String :=
  "'MessageBroker' object has no attribute 'publish'"

/-- Environment of a step: the LLM collaborator used by `query_llm` (`none`
models an LLM exception).  The broker publish inside `BaseAgent.send_message`
is NOT a parameter: `MessageBroker` defines no `publish` attribute
(`broker_publish_exists` is `false`), so in the source as written every send
raises and the handlers below always take their exception paths. -/
structure Env where
  llm : String → Option String := fun _ => none

/-- Result of one orchestrator operation: the new state, the messages
successfully published to the broker (always empty in the source as written,
since every `send_message` raises at the publish) and the
`( project_id, text)` user notifications emitted by `_notify_user`
(in order). -/
structure StepOut where
  state : OrchestratorState
  sent : List Message := []
  notes : List (String × String) := []
deriving Repr

/-- Python truthiness of the `if current_phase:` test in
`_update_project_status`: an empty string is falsy. -/
def pyTruthyStr : Option String → Bool
  | none => false
  | some s => !(s == "")

/-- The fresh entry `_update_project_status` creates for a project missing
from `self.project_statuses`. -/
def default_status (project_id : String) : ProjectStatus :=
  { project_id := project_id, current_phase := "unknown",
    completion_percentage := 0, active_agents := [], next_actions := [] }

/-- The field-by-field mutation performed by `_update_project_status`:
`current_phase` is assigned when truthy, `completion_percentage` /
`active_agents` / `next_actions` when not `None`, and `issues` are appended
with `extend`. -/
def apply_status_update (base : ProjectStatus) (current_phase : Option String)
    (completion_percentage : Option ℚ) (active_agents : Option (List AgentType))
    (next_actions : Option (List String)) (issues : Option (List String)) :
    ProjectStatus :=
  { project_id := base.project_id,
    current_phase :=
      if pyTruthyStr current_phase then current_phase.getD base.current_phase
      else base.current_phase,
    completion_percentage := completion_percentage.getD base.completion_percentage,
    active_agents := active_agents.getD base.active_agents,
    next_actions := next_actions.getD base.next_actions,
    issues := base.issues ++ issues.getD [] }

/-- `OrchestratorAgent._update_project_status`: creates a default
`ProjectStatus` (phase `"unknown"`, 0.0 %) when the project is missing, then
applies exactly the non-`None` arguments. -/
def update_project_status (st : OrchestratorState) (project_id : String)
    (current_phase : Option String := none)
    (completion_percentage : Option ℚ := none)
    (active_agents : Option (List AgentType) := none)
    (next_actions : Option (List String) := none)
    (issues : Option (List String) := none) : OrchestratorState :=
  let base := (alist_find project_id st.project_statuses).getD (default_status project_id)
  let updated := apply_status_update base current_phase completion_percentage
    active_agents next_actions issues
  { st with project_statuses := alist_upsert project_id updated st.project_statuses }

/-- The orchestrator's fixed agent id (`__init__` default). -/
def orchestrator_agent_id : String := "orchestrator_agent_001"

/-- The `Message` object `BaseAgent.send_message` constructs on behalf of
the orchestrator before attempting the publish (fresh uuid modelled by a
placeholder).  It is never delivered: the publish that follows raises. -/
def sent_message (target : AgentType) (mt : MessageType) (content : String)
    (project_id : String) (md : Metadata) (prio : Priority := .MEDIUM) : Message :=
  { id := "uuid", from_agent := .ORCHESTRATOR, to_agent := target, message_type := mt,
    content := content, metadata := md, project_id := project_id, priority := prio }

/-- Substring occurrence check (Python `in` on strings). -/
def list_infix_check (kw : List Char) : List Char → Bool
  | [] => kw.isEmpty
  | c :: rest => kw.isPrefixOf (c :: rest) || list_infix_check kw rest

/-- `_determine_initial_domain`: keyword matching on the lowercased text. -/
def determine_initial_domain (specification : String) : String :=
  let s := specification.toLower
  let has : List String → Bool := fun kws => kws.any (fun kw => list_infix_check kw.toList s.toList)
  if has ["bank", "finance", "payment", "trading"] then "financial"
  else if has ["manufactur", "factory", "production"] then "manufacturing"
  else if has ["health", "medical", "hospital"] then "healthcare"
  else if has ["ecommerce", "shop", "retail"] then "ecommerce"
  else if has ["education", "school", "student"] then "education"
  else if has ["logistics", "shipping", "delivery"] then "logistics"
  else "general"

/-- Notification text of `_handle_user_specification` on success. -/
def init_ok_text (pid : String) : String :=
  "Project " ++ pid ++ " initiated successfully. BA Agent is analyzing your requirements."

/-- Notification text of `_handle_user_specification` on an exception. -/
def error_start_text (err : String) : String := "Error starting project: " ++ err

/-- Notification text of `_handle_ba_clarification_request`. -/
def ba_clarification_text (c : String) : String :=
  "The Business Analyst needs some clarifications about your requirements: " ++ c ++
    " Please provide detailed answers so we can proceed with the analysis."

/-- Notification text of `_handle_architect_clarification_request`. -/
def architect_clarification_text (c : String) : String :=
  "The System Architect needs technical clarifications: " ++ c ++
    " Please provide the requested technical details."

/-- Notification text of `_handle_developer_clarification_request`. -/
def developer_clarification_text (c : String) : String :=
  "The Developer needs technical clarifications for implementation: " ++ c ++
    " Please provide the implementation details requested."

/-- Notification text of `_handle_tester_clarification_request`. -/
def tester_clarification_text (c : String) : String :=
  "The QA Tester needs clarifications about testing requirements: " ++ c ++
    " Please provide the testing details requested."

/-- Notification text of `_handle_error`. -/
def error_details_text (pid agent content : String) : String :=
  "Error in Project " ++ pid ++ ": Agent: " ++ agent ++ " Error: " ++ content ++
    " The system is attempting to recover from this error."

/-- Notification text of `_escalate_error`. -/
def escalation_text (pid err : String) : String :=
  "Critical Error in Project " ++ pid ++
    " The system encountered an unrecoverable error and cannot continue automatically. Error Details: "
    ++ err ++
    " Please review the project requirements and restart the project if needed. Support has been notified of this issue."

/-- Notification text of `_handle_project_completion`. -/
def completion_message_text (pid summary : String) : String :=
  "Project " ++ pid ++ " Completed Successfully! " ++ summary ++
    " Your application has been developed, tested, and is ready for deployment. All artifacts and documentation have been generated and are available for download."

/-- Notification text of `_notify_user_of_progress`. -/
def progress_text (agent content phase : String) (completion : ℚ) : String :=
  "Project Progress Update Agent: " ++ agent ++ " Update: " ++ content ++
    " Current Status: " ++ phase ++ " Progress: " ++ toString completion ++ "%"

/-- Notification text of `_handle_orchestrator_error`. -/
def orchestrator_error_text (err : String) : String :=
  "System Error The orchestrator encountered an error while processing your request. Error: "
    ++ err ++ " Please try again or contact support if the issue persists."

/-- LLM prompt of `_generate_final_project_summary`. -/
def summary_prompt_text (title description : String) (n : Nat) : String :=
  "Generate a comprehensive project completion summary: Project: " ++ title ++
    " Description: " ++ description ++ " Workflow Messages: " ++ toString n ++
    " agent interactions. Create a summary covering: 1. Project objectives and requirements 2. Architecture decisions made 3. Development approach and technologies used 4. Testing coverage and quality assurance 5. Final deliverables 6. Deployment readiness Keep it concise but comprehensive for executive summary."

/-- `_generate_final_project_summary`: queries the LLM; an LLM exception is
caught and replaced by the deterministic fallback summary. -/
def final_project_summary (env : Env) (st : OrchestratorState) (pid : String) : String :=
  let spec := alist_find pid st.projects
  let n := ((alist_find pid st.workflow_history).getD []).length
  let title := match spec with | some s => s.title | none => pid
  let description := match spec with | some s => s.description | none => "N/A"
  match env.llm (summary_prompt_text title description n) with
  | some s => s
  | none => "Project " ++ pid ++ " completed with " ++ toString n ++ " agent interactions."

/-- Rewrite every message of project `pid`'s workflow history with `f`
(models in-place mutation of a message object aliased by the history list). -/
def map_history (st : OrchestratorState) (pid : String) (f : Message → Message) :
    OrchestratorState :=
  match alist_find pid st.workflow_history with
  | some l => { st with workflow_history := alist_upsert pid (l.map f) st.workflow_history }
  | none => st

/-- The metadata mutation performed by `_handle_ba_clarification_request` on
the (history-aliased) QUERY message. -/
def set_pending_clarification (m : Message) : Message :=
  { m with metadata :=
      { m.metadata with pending_clarification := true,
                        clarification_type := some "requirements" } }

/-- `_handle_user_specification`: records the project and initializes its
status, then tries to forward the specification to BA.  That `send_message`
raises `AttributeError` (`MessageBroker` has no `publish`), so this handler's
own `except` catches it and notifies the user of the error; the registry
writes made before the send are kept, and the success notification
(`init_ok_text`) is unreachable. -/
def handle_user_specification (_env : Env) (st : OrchestratorState) (m : Message) : StepOut :=
  let pid := m.project_id
  let spec : ProjectSpecification :=
    { id := pid, title := "Project " ++ pid, description := m.content,
      domain := determine_initial_domain m.content }
  let st1 := { st with projects := alist_upsert pid spec st.projects }
  let status : ProjectStatus :=
    { project_id := pid, current_phase := "requirements_analysis",
      completion_percentage := 0, active_agents := [.BA],
      next_actions := ["BA Agent analyzing requirements"] }
  let st2 := { st1 with project_statuses := alist_upsert pid status st1.project_statuses }
  { state := st2, notes := [(pid, error_start_text publish_attribute_error)] }

/-- `_handle_agent_query`: surfaces the query to the user (for BA also
mutating the recorded message's metadata in place), then parks the project in
`awaiting_clarification`. -/
def handle_agent_query (_env : Env) (st : OrchestratorState) (m : Message) : StepOut :=
  let pid := m.project_id
  let st1 : OrchestratorState :=
    match m.from_agent with
    | .BA => map_history st pid
        (fun msg => if msg.id = m.id then set_pending_clarification msg else msg)
    | _ => st
  let notes1 : List (String × String) :=
    match m.from_agent with
    | .BA => [(pid, ba_clarification_text m.content)]
    | .ARCHITECT => [(pid, architect_clarification_text m.content)]
    | .DEVELOPER => [(pid, developer_clarification_text m.content)]
    | .TESTER => [(pid, tester_clarification_text m.content)]
    | .ORCHESTRATOR => []
  let st2 := update_project_status st1 pid (some "awaiting_clarification") none none
    (some ["Waiting for user response to " ++ m.from_agent.value ++ " agent query"]) none
  { state := st2, notes := notes1 }

/-- `_handle_project_completion`: marks the project completed and emits the
synthesized completion summary to the user. -/
def handle_project_completion (env : Env) (st : OrchestratorState) (m : Message) : StepOut :=
  let pid := m.project_id
  let st1 := update_project_status st pid (some "completed") (some 100) (some [])
    (some ["Project completed and ready for deployment"]) none
  let summary := final_project_summary env st1 pid
  { state := st1, notes := [(pid, completion_message_text pid summary)] }

/-- The default `ProjectStatus` used by `_notify_user_of_progress` when the
project is unknown. -/
def default_progress_status (pid : String) : ProjectStatus :=
  { project_id := pid, current_phase := "unknown", completion_percentage := 0,
    active_agents := [], next_actions := [] }

/-- `_notify_user_of_progress`: progress notification built from the
(post-update) project status. -/
def progress_note (st : OrchestratorState) (m : Message) : String × String :=
  let status := (alist_find m.project_id st.project_statuses).getD
    (default_progress_status m.project_id)
  (m.project_id,
   progress_text m.from_agent.value m.content status.current_phase
     status.completion_percentage)

/-- `_handle_status_update` with the per-agent handlers
(`_handle_ba_status_update`, `_handle_architect_status_update`,
`_handle_developer_status_update`, `_handle_tester_status_update`) inlined,
followed by `_notify_user_of_progress`. -/
def handle_status_update (env : Env) (st : OrchestratorState) (m : Message) : StepOut :=
  let pid := m.project_id
  let phase := m.metadata.phase.getD "unknown"
  let inner : StepOut :=
    match m.from_agent with
    | .BA =>
        if phase = "test_preparation_complete" then
          { state := update_project_status st pid (some "test_preparation") (some 20)
              (some [.TESTER]) (some ["QA Agent preparing test cases"]) none }
        else if phase = "development_complete" then
          { state := update_project_status st pid (some "qa_testing") (some 70)
              (some [.TESTER]) (some ["QA Agent testing application"]) none }
        else { state := st }
    | .ARCHITECT =>
        { state := update_project_status st pid (some "architecture_design") (some 30)
            (some [.ARCHITECT, .BA]) (some ["BA Agent reviewing architecture design"]) none }
    | .DEVELOPER =>
        if phase = "development_complete" then
          { state := update_project_status st pid (some "development_complete") (some 60)
              (some [.TESTER]) (some ["QA Agent testing developed application"]) none }
        else { state := st }
    | .TESTER =>
        if m.metadata.qa_signoff then handle_project_completion env st m
        else
          { state := update_project_status st pid (some "qa_review") (some 85)
              (some [.DEVELOPER]) (some ["Developer fixing issues identified by QA"]) none }
    | .ORCHESTRATOR => { state := st }
  { inner with notes := inner.notes ++ [progress_note inner.state m] }

/-- `_escalate_error`: notifies the user and moves the project to `failed`,
resetting completion to 0 and appending the critical issue. -/
def escalate_error (st : OrchestratorState) (pid err : String) :
    OrchestratorState × (String × String) :=
  let st1 := update_project_status st pid (some "failed") (some 0) (some [])
    (some ["Manual intervention required"]) (some ["Critical error: " ++ err])
  (st1, (pid, escalation_text pid err))

/-- The reduced-scope recovery `SPECIFICATION` each per-agent
`_recover_*_error` strategy constructs inside `send_message`.  It is never
published: the publish that follows raises `AttributeError`. -/
def recovery_message (a : AgentType) (error_message : Message) : Message :=
  let pid := error_message.project_id
  match a with
  | .BA => sent_message .BA .SPECIFICATION
      ("Simplified version of original specification for project " ++ pid) pid
      { recovery_attempt := true, original_error := some error_message.content }
  | .ARCHITECT => sent_message .ARCHITECT .SPECIFICATION
      ("Please provide a simplified architecture design for project " ++ pid) pid
      { recovery_attempt := true }
  | .DEVELOPER => sent_message .DEVELOPER .SPECIFICATION
      ("Please implement a simplified version for project " ++ pid) pid
      { recovery_attempt := true }
  | .TESTER => sent_message .TESTER .SPECIFICATION
      ("Please perform basic testing for project " ++ pid) pid
      { recovery_attempt := true }
  | .ORCHESTRATOR => sent_message .BA .SPECIFICATION "" pid {}

/-- `_restart_workflow_from_last_stable_state`: for a known project it tries
to re-send the stored specification to BA, but that `send_message` raises
`AttributeError` before the `workflow_restart` status update is reached; this
method's own `except` catches the exception and escalates.  Unknown projects
are left untouched. -/
def restart_workflow_from_last_stable_state (_env : Env) (st : OrchestratorState)
    (pid : String) : StepOut :=
  match alist_find pid st.projects with
  | some _ =>
      let r := escalate_error st pid
        ("Workflow restart failed: " ++ publish_attribute_error)
      { state := r.1, notes := [r.2] }
  | none => { state := st }

/-- `_attempt_error_recovery`: dispatches the per-agent recovery strategy
(all four worker agents have one; any other sender falls back to the workflow
restart).  Every strategy's `send_message` raises `AttributeError`
(`MessageBroker` has no `publish`), so the `except` here always catches it
and escalates — no recovery `SPECIFICATION` is ever published. -/
def attempt_error_recovery (env : Env) (st : OrchestratorState) (m : Message) : StepOut :=
  match m.from_agent with
  | .ORCHESTRATOR => restart_workflow_from_last_stable_state env st m.project_id
  | _ =>
      let r := escalate_error st m.project_id publish_attribute_error
      { state := r.1, notes := [r.2] }

/-- `_handle_error`: notifies the user, moves the project to
`error_recovery`, then attempts recovery. -/
def handle_error (env : Env) (st : OrchestratorState) (m : Message) : StepOut :=
  let pid := m.project_id
  let st1 := update_project_status st pid (some "error_recovery") none none
    (some ["Recovering from " ++ m.from_agent.value ++ " agent error"]) none
  let out := attempt_error_recovery env st1 m
  { out with notes := (pid, error_details_text pid m.from_agent.value m.content) :: out.notes }

/-- `_handle_response`: tries to forward a user-clarification response
(built from `metadata.original_requester`) to the original requester.  The
forwarding `send_message` raises `AttributeError`, which propagates to
`process_message`'s outer handler (`_handle_orchestrator_error`); that
handler only notifies the user and is folded in here.  Nothing is ever
forwarded. -/
def handle_response (_env : Env) (st : OrchestratorState) (m : Message) : StepOut :=
  if m.metadata.clarification_response then
    { state := st,
      notes := [(m.project_id, orchestrator_error_text publish_attribute_error)] }
  else { state := st }

/-- The history-recording step at the top of
`OrchestratorAgent.process_message`: appends the incoming message to the
per-project workflow history (creating the project's list if absent). -/
def record_message (st : OrchestratorState) (m : Message) : OrchestratorState :=
  let old := (alist_find m.project_id st.workflow_history).getD []
  { st with workflow_history :=
      alist_upsert m.project_id (old ++ [m]) st.workflow_history }

/-- `OrchestratorAgent.process_message`: appends the message to the
per-project workflow history, then dispatches on the message type
(`APPROVAL`/`ARTIFACT` only log a warning). -/
def process_message (env : Env) (st : OrchestratorState) (m : Message) : StepOut :=
  let st1 := record_message st m
  match m.message_type with
  | .SPECIFICATION => handle_user_specification env st1 m
  | .QUERY => handle_agent_query env st1 m
  | .STATUS => handle_status_update env st1 m
  | .ERROR => handle_error env st1 m
  | .RESPONSE => handle_response env st1 m
  | _ => { state := st1 }

/-- The in-place `resolved` mark `send_user_clarification` would apply to
the latest pending query — unreachable in the source, since the send before
it always raises. -/
def mark_resolved (m : Message) : Message :=
  { m with metadata := { m.metadata with resolved := true } }

/-- The filter used by `send_user_clarification` to collect pending queries. -/
def is_pending_query (msg : Message) : Bool :=
  msg.message_type == .QUERY && msg.metadata.resolved == false

/-- A message with its (mutable) metadata dictionary erased: the projection
to the fields that are fixed at construction (id, sender, recipient, type,
content, project, priority), used to state the append-only property of the
workflow history modulo in-place metadata mutation. -/
def message_core (m : Message) : Message := { m with metadata := {} }

/-- `OrchestratorAgent.send_user_clarification`: finds the most recent
unresolved QUERY in the project's workflow history and tries to forward the
clarification to its sender as a RESPONSE.  That `send_message` raises
`AttributeError` (`MessageBroker` has no `publish`) BEFORE the
`latest_query.metadata["resolved"] = True` line; the method's own
`except Exception` catches it and returns `False`.  So the method always
returns `False`, never marks anything resolved (`mark_resolved` is
unreachable) and never sends.  Returns (result, new state, sent). -/
def send_user_clarification (_env : Env) (st : OrchestratorState)
    (pid : String) (_clarification : String) :
    Bool × OrchestratorState × List Message :=
  let workflow := (alist_find pid st.workflow_history).getD []
  let pending := workflow.filter is_pending_query
  match pending.getLast? with
  | some _ => (false, st, [])
  | none => (false, st, [])

/-!  Message broker (`src/utils/message_broker.py`, class `MessageBroker`) and
the shared agent mailbox loop (`src/agents/base_agent.py`).  The broker keeps
a single FIFO queue of `(topic, message)` pairs (an `asyncio.Queue`); the
processing task dequeues the head and hands the message to every callback
subscribed to its topic.  Each agent's callback (`BaseAgent.handle_message`)
appends the message to that agent's task queue, so delivery is modelled as an
append to the recipient's mailbox.  Messages published by handlers during
processing join the tail of the queue and cannot reorder earlier entries. -/

/-- Broker state (`MessageBroker.__init__`): subscribers per topic (each
subscriber is an agent whose callback appends to that agent's mailbox), the
FIFO message queue, and the `connected` / `_running` flags. -/
structure BrokerSt where
  subscribers : List (String × List AgentType) := []
  message_queue : List (String × Message) := []
  connected : Bool := false
  running : Bool := false
deriving Repr

/-- `MessageBroker.connect`. -/
def broker_connect (bs : BrokerSt) : BrokerSt :=
  { bs with connected := true, running := true }

/-- `MessageBroker.disconnect`. -/
def broker_disconnect (bs : BrokerSt) : BrokerSt :=
  { bs with connected := false, running := false }

/-- `MessageBroker.publish_message`: when not connected, logs a warning and
returns with the message dropped; otherwise appends to the FIFO queue. -/
def publish_message (bs : BrokerSt) (topic : String) (m : Message) : BrokerSt :=
  if !bs.connected then bs
  else { bs with message_queue := bs.message_queue ++ [(topic, m)] }

/-- `MessageBroker.subscribe`: appends a callback for the topic. -/
def broker_subscribe (bs : BrokerSt) (topic : String) (a : AgentType) : BrokerSt :=
  let l := (alist_find topic bs.subscribers).getD []
  { bs with subscribers := alist_upsert topic (l ++ [a]) bs.subscribers }

/-- Per-agent mailboxes (each agent's `task_queue`). -/
def Mailboxes : Type := AgentType → List Message

/-- The empty mailboxes. -/
def empty_boxes : Mailboxes := fun _ => []

/-- One delivery step of `MessageBroker._process_messages`: the dequeued
message is handed to every subscriber of its topic, i.e. appended to each
subscribed agent's mailbox; with no subscriber it is silently dropped. -/
def deliver (subs : List (String × List AgentType)) (topic : String) (m : Message)
    (boxes : Mailboxes) : Mailboxes :=
  match alist_find topic subs with
  | none => boxes
  | some agents =>
      agents.foldl (fun bx a => fun a2 => if a2 = a then bx a2 ++ [m] else bx a2) boxes

/-- `MessageBroker._process_messages`, run until the queue is empty: each
iteration dequeues the HEAD of the queue (an `asyncio.Queue` is FIFO; the
message's `priority` field is never consulted) and delivers it.  Returns the
final mailboxes and the dequeued `(topic, message)` pairs in dequeue order. -/
def drain_queue (subs : List (String × List AgentType)) :
    List (String × Message) → Mailboxes → Mailboxes × List (String × Message)
  | [], boxes => (boxes, [])
  | (t, m) :: rest, boxes =>
      let r := drain_queue subs rest (deliver subs t m boxes)
      (r.1, (t, m) :: r.2)

/-- The topic an agent subscribes to and is addressed on
(`BaseAgent.start` / `BaseAgent.send_message`: `f"agents/{agent_type.value}"`). -/
def agent_topic (a : AgentType) : String := "agents/" ++ a.value

/-- The subscriber table after every agent has called `BaseAgent.start`:
exactly one subscriber per agent topic. -/
def canonical_subscribers : List (String × List AgentType) :=
  [(agent_topic .BA, [.BA]), (agent_topic .ARCHITECT, [.ARCHITECT]),
   (agent_topic .DEVELOPER, [.DEVELOPER]), (agent_topic .TESTER, [.TESTER]),
   (agent_topic .ORCHESTRATOR, [.ORCHESTRATOR])]

/-- Publishing a batch of messages in order through the broker's own
`publish_message` API, each to its recipient's topic `agents/{to}`. -/
def publish_all (bs : BrokerSt) (ms : List Message) : BrokerSt :=
  ms.foldl (fun b m => publish_message b (agent_topic m.to_agent) m) bs

/-- Reassigning a message's priority field (and nothing else). -/
def set_priority (p : Priority) (m : Message) : Message := { m with priority := p }

/-- State of one agent's mailbox loop (`BaseAgent`): `state.status`,
`state.current_task` and the `task_queue`. -/
structure AgentLoopState where
  status : String := "idle"
  current_task : Option String := none
  task_queue : List Message := []
deriving DecidableEq, Repr

/-- Environment of the agent loop: the outcome of the subclass
`process_message` handler (`some err` models an exception raised with
`str(e) = err`).  The error reply's publish is not a parameter: it always
raises `AttributeError` (`MessageBroker` has no `publish`), so the loop never
successfully publishes anything itself. -/
structure AgentEnv where
  handler_result : Message → Option String

/-- `BaseAgent.send_error_message`: the ERROR reply constructed (inside
`send_message`) for the sender of a message whose processing raised.  It is
never published: the publish that follows raises `AttributeError`. -/
def send_error_message (a : AgentType) (original : Message) (err : String) : Message :=
  { id := "uuid", from_agent := a, to_agent := original.from_agent,
    message_type := .ERROR,
    content := "Error processing your " ++ original.message_type.value ++ ": " ++ err,
    metadata := { original_message_id := some original.id },
    project_id := original.project_id, priority := .HIGH }

/-- The recursive body of `BaseAgent.process_next_task` on a non-empty
queue: pop the head, mark the agent `working`, run the handler; on an
exception the loop calls `send_error_message`, which builds the ERROR reply
and then raises `AttributeError` at the publish — so nothing is published
whether the handler raises or not.  The `finally` block still resets the
agent to `idle` (clearing `current_task`) and recursively processes the rest
of the queue before the publish exception propagates (where the broker
callback swallows it).  The `[]` base case is the state left behind by the
last `finally` block. -/
def process_next_task_aux (env : AgentEnv) (a : AgentType) :
    List Message → AgentLoopState × List Message
  | [] => ({ status := "idle", current_task := none, task_queue := [] }, [])
  | m :: rest =>
      let errSent : List Message :=
        match env.handler_result m with
        | none => []
        | some _ => []
      let r := process_next_task_aux env a rest
      (r.1, errSent ++ r.2)

/-- `BaseAgent.process_next_task`: returns immediately (state untouched) on
an empty queue, otherwise runs the loop of `process_next_task_aux`.  Returns
the final loop state and the messages the loop itself sent, in order. -/
def process_next_task (env : AgentEnv) (a : AgentType) (st : AgentLoopState) :
    AgentLoopState × List Message :=
  match st.task_queue with
  | [] => (st, [])
  | m :: rest => process_next_task_aux env a (m :: rest)

theorem alist_find_upsert_self {α : Type} (k : String) (v : α) (l : List (String × α)) :
    alist_find k (alist_upsert k v l) = some v := by
  induction l with
  | nil => simp [alist_find, alist_upsert]
  | cons hd tl ih =>
      obtain ⟨k2, v2⟩ := hd
      by_cases h : k2 = k <;> simp [alist_find, alist_upsert, h, ih]

theorem alist_find_upsert_ne {α : Type} (k k2 : String) (v : α) (l : List (String × α))
    (h : k2 ≠ k) : alist_find k2 (alist_upsert k v l) = alist_find k2 l := by
  induction l with
  | nil => simp [alist_find, alist_upsert, Ne.symm h]
  | cons hd tl ih =>
      obtain ⟨k3, v3⟩ := hd
      by_cases h3 : k3 = k
      · subst h3
        simp [alist_find, alist_upsert, Ne.symm h]
      · simp [alist_find, alist_upsert, h3, ih]


/-!  Concrete fixtures used by the closed counterexample and witness
theorems below. -/

/-- The default environment (LLM collaborator raising; the broker publish
needs no flag — it always raises in the source). -/
def env0 : Env := {}

/-- A user specification message for project `p1`
(`start_project` self-addresses it to the orchestrator). -/
def m_spec_p1 : Message :=
  { id := "m1", from_agent := .ORCHESTRATOR, to_agent := .ORCHESTRATOR,
    message_type := .SPECIFICATION, content := "a simple task app",
    project_id := "p1" }

/-- A Tester STATUS without `qa_signoff` for `p1`. -/
def m_tester_status : Message :=
  { id := "m2", from_agent := .TESTER, to_agent := .ORCHESTRATOR,
    message_type := .STATUS, content := "qa found issues", project_id := "p1" }

/-- A Tester STATUS with `qa_signoff = true` for `p1`. -/
def m_tester_signoff : Message :=
  { id := "m7", from_agent := .TESTER, to_agent := .ORCHESTRATOR,
    message_type := .STATUS, content := "all good",
    metadata := { qa_signoff := true }, project_id := "p1" }

/-- An Architect STATUS for `p1`. -/
def m_arch_status : Message :=
  { id := "m3", from_agent := .ARCHITECT, to_agent := .ORCHESTRATOR,
    message_type := .STATUS, content := "design ready", project_id := "p1" }

/-- An ERROR from the BA agent for `p1`. -/
def m_error_ba : Message :=
  { id := "m4", from_agent := .BA, to_agent := .ORCHESTRATOR,
    message_type := .ERROR, content := "ba crashed", project_id := "p1" }

/-- State after the specification for `p1` was processed. -/
def st_p1_created : OrchestratorState := (process_message env0 {} m_spec_p1).state

/-- ... then a Tester STATUS without signoff (phase `qa_review`, 85 %). -/
def st_p1_qa_review : OrchestratorState :=
  (process_message env0 st_p1_created m_tester_status).state

/-- ... then an out-of-order Architect STATUS (phase `architecture_design`, 30 %). -/
def st_p1_regressed : OrchestratorState :=
  (process_message env0 st_p1_qa_review m_arch_status).state

/-- ... or instead an ERROR, whose recovery send raised the
`AttributeError`, escalating `p1` to `failed`. -/
def st_p1_failed : OrchestratorState :=
  (process_message env0 st_p1_created m_error_ba).state

/-- An unresolved QUERY from the BA agent. -/
def q_ba : Message :=
  { id := "q1", from_agent := .BA, to_agent := .ORCHESTRATOR,
    message_type := .QUERY, content := "which database?", project_id := "p1" }

/-- A later unresolved QUERY from the Architect agent. -/
def q_arch : Message :=
  { id := "q2", from_agent := .ARCHITECT, to_agent := .ORCHESTRATOR,
    message_type := .QUERY, content := "which cloud?", project_id := "p1" }

/-- A state whose `p1` workflow history holds the two unresolved queries. -/
def st_two_queries : OrchestratorState :=
  { workflow_history := [("p1", [q_ba, q_arch])] }

/-- A state whose `p1` workflow history holds one unresolved query. -/
def st_one_query : OrchestratorState :=
  { workflow_history := [("p1", [q_ba])] }

/-- A `p1` status sitting in `qa_review` at 85 %. -/
def qa_status_p1 : ProjectStatus :=
  { project_id := "p1", current_phase := "qa_review", completion_percentage := 85,
    active_agents := [.DEVELOPER], issues := [],
    next_actions := ["Developer fixing issues identified by QA"] }

/-- A state knowing only project `p1`, parked in `qa_review`. -/
def st_qa_p1 : OrchestratorState := { project_statuses := [("p1", qa_status_p1)] }

/-- A `p1` status already escalated to `failed`. -/
def failed_status_p1 : ProjectStatus :=
  { project_id := "p1", current_phase := "failed", completion_percentage := 0,
    active_agents := [],
    issues := ["Critical error: " ++ publish_attribute_error],
    next_actions := ["Manual intervention required"] }

/-- A state whose project `p1` already failed. -/
def st_failed_p1 : OrchestratorState :=
  { project_statuses := [("p1", failed_status_p1)] }

/-- An agent-loop environment whose handler raises `"boom"` on every message. -/
def env_boom : AgentEnv := { handler_result := fun _ => some "boom" }

/-- A message for the agent-loop counterexample. -/
def m_c5 : Message :=
  { id := "m5", from_agent := .BA, to_agent := .DEVELOPER,
    message_type := .STATUS, content := "x", project_id := "p1" }

/-- A broker that was never connected but has all subscribers registered. -/
def bs_disconnected : BrokerSt := { subscribers := canonical_subscribers }

/-- A message published while the broker is disconnected. -/
def m_c10 : Message :=
  { id := "m6", from_agent := .BA, to_agent := .ARCHITECT,
    message_type := .ARTIFACT, content := "doc", project_id := "p9" }

/-!  Helper lemmas: which registries each operation touches. -/

theorem update_statuses_self (st : OrchestratorState) (pid : String)
    (cp : Option String) (co : Option ℚ) (aa : Option (List AgentType))
    (na : Option (List String)) (iss : Option (List String)) :
    alist_find pid (update_project_status st pid cp co aa na iss).project_statuses
      = some (apply_status_update ((alist_find pid st.project_statuses).getD
          (default_status pid)) cp co aa na iss) := by
  simp [update_project_status, alist_find_upsert_self]

theorem update_statuses_other (st : OrchestratorState) (pid pid2 : String)
    (cp : Option String) (co : Option ℚ) (aa : Option (List AgentType))
    (na : Option (List String)) (iss : Option (List String)) (h : pid2 ≠ pid) :
    alist_find pid2 (update_project_status st pid cp co aa na iss).project_statuses
      = alist_find pid2 st.project_statuses := by
  simp [update_project_status, alist_find_upsert_ne _ _ _ _ h]

theorem update_history (st : OrchestratorState) (pid : String)
    (cp : Option String) (co : Option ℚ) (aa : Option (List AgentType))
    (na : Option (List String)) (iss : Option (List String)) :
    (update_project_status st pid cp co aa na iss).workflow_history
      = st.workflow_history := rfl

theorem map_history_statuses (st : OrchestratorState) (pid : String)
    (f : Message → Message) :
    (map_history st pid f).project_statuses = st.project_statuses := by
  unfold map_history
  split <;> rfl

theorem escalate_statuses_other (st : OrchestratorState) (pid pid2 err : String)
    (h : pid2 ≠ pid) :
    alist_find pid2 (escalate_error st pid err).1.project_statuses
      = alist_find pid2 st.project_statuses := by
  simp [escalate_error, update_statuses_other _ _ _ _ _ _ _ _ h]

theorem restart_statuses_other (env : Env) (st : OrchestratorState) (pid pid2 : String)
    (h : pid2 ≠ pid) :
    alist_find pid2 (restart_workflow_from_last_stable_state env st pid).state.project_statuses
      = alist_find pid2 st.project_statuses := by
  unfold restart_workflow_from_last_stable_state
  split
  · simp [escalate_statuses_other _ _ _ _ h]
  · rfl

theorem attempt_statuses_other (env : Env) (st : OrchestratorState) (m : Message)
    (pid2 : String) (h : pid2 ≠ m.project_id) :
    alist_find pid2 (attempt_error_recovery env st m).state.project_statuses
      = alist_find pid2 st.project_statuses := by
  unfold attempt_error_recovery
  cases m.from_agent <;>
    simp [restart_statuses_other _ _ _ _ h, escalate_statuses_other _ _ _ _ h]

theorem handle_error_statuses_other (env : Env) (st : OrchestratorState) (m : Message)
    (pid2 : String) (h : pid2 ≠ m.project_id) :
    alist_find pid2 (handle_error env st m).state.project_statuses
      = alist_find pid2 st.project_statuses := by
  unfold handle_error
  simp [attempt_statuses_other _ _ _ _ h, update_statuses_other _ _ _ _ _ _ _ _ h]

theorem completion_statuses_other (env : Env) (st : OrchestratorState) (m : Message)
    (pid2 : String) (h : pid2 ≠ m.project_id) :
    alist_find pid2 (handle_project_completion env st m).state.project_statuses
      = alist_find pid2 st.project_statuses := by
  unfold handle_project_completion
  simp [update_statuses_other _ _ _ _ _ _ _ _ h]

theorem handle_status_statuses_other (env : Env) (st : OrchestratorState) (m : Message)
    (pid2 : String) (h : pid2 ≠ m.project_id) :
    alist_find pid2 (handle_status_update env st m).state.project_statuses
      = alist_find pid2 st.project_statuses := by
  unfold handle_status_update
  cases m.from_agent <;>
    simp [update_statuses_other _ _ _ _ _ _ _ _ h,
      completion_statuses_other _ _ _ _ h] <;>
    split_ifs <;>
    simp [update_statuses_other _ _ _ _ _ _ _ _ h,
      completion_statuses_other _ _ _ _ h]

theorem handle_query_statuses_other (env : Env) (st : OrchestratorState) (m : Message)
    (pid2 : String) (h : pid2 ≠ m.project_id) :
    alist_find pid2 (handle_agent_query env st m).state.project_statuses
      = alist_find pid2 st.project_statuses := by
  unfold handle_agent_query
  cases m.from_agent <;>
    simp [update_statuses_other _ _ _ _ _ _ _ _ h, map_history_statuses]

theorem handle_spec_statuses_other (env : Env) (st : OrchestratorState) (m : Message)
    (pid2 : String) (h : pid2 ≠ m.project_id) :
    alist_find pid2 (handle_user_specification env st m).state.project_statuses
      = alist_find pid2 st.project_statuses := by
  unfold handle_user_specification
  simp [alist_find_upsert_ne _ _ _ _ h]

theorem handle_response_statuses (env : Env) (st : OrchestratorState) (m : Message) :
    (handle_response env st m).state.project_statuses = st.project_statuses := by
  unfold handle_response
  split_ifs <;> rfl

theorem record_message_statuses (st : OrchestratorState) (m : Message) :
    (record_message st m).project_statuses = st.project_statuses := rfl

theorem record_message_projects (st : OrchestratorState) (m : Message) :
    (record_message st m).projects = st.projects := rfl

/-- Processing a message never touches another project's status entry. -/
theorem process_statuses_other (env : Env) (st : OrchestratorState) (m : Message)
    (pid2 : String) (h : pid2 ≠ m.project_id) :
    alist_find pid2 (process_message env st m).state.project_statuses
      = alist_find pid2 st.project_statuses := by
  unfold process_message
  cases m.message_type <;>
    simp [handle_spec_statuses_other _ _ _ _ h, handle_query_statuses_other _ _ _ _ h,
      handle_status_statuses_other _ _ _ _ h, handle_error_statuses_other _ _ _ _ h,
      handle_response_statuses, record_message_statuses]

/-!  Characterization of a step's effect on the processed project's own
status entry, used for the completion-monotonicity analysis. -/

theorem handle_spec_self (env : Env) (st : OrchestratorState) (m : Message)
    (stNew : ProjectStatus)
    (h : alist_find m.project_id
      (handle_user_specification env st m).state.project_statuses = some stNew) :
    stNew.current_phase = "requirements_analysis" := by
  unfold handle_user_specification at h
  simp [alist_find_upsert_self] at h
  simp [← h]

theorem handle_query_self (env : Env) (st : OrchestratorState) (m : Message)
    (stNew : ProjectStatus)
    (h : alist_find m.project_id
      (handle_agent_query env st m).state.project_statuses = some stNew) :
    stNew.completion_percentage =
      ((alist_find m.project_id st.project_statuses).getD
        (default_status m.project_id)).completion_percentage := by
  unfold handle_agent_query at h
  cases hfa : m.from_agent <;>
    simp only [hfa] at h <;>
    rw [update_statuses_self] at h <;>
    simp [map_history_statuses] at h <;>
    simp [← h, apply_status_update]

theorem completion_self (env : Env) (st : OrchestratorState) (m : Message)
    (stNew : ProjectStatus)
    (h : alist_find m.project_id
      (handle_project_completion env st m).state.project_statuses = some stNew) :
    stNew.completion_percentage = 100 := by
  unfold handle_project_completion at h
  rw [update_statuses_self] at h
  simp at h
  simp [← h, apply_status_update]

theorem handle_status_self (env : Env) (st : OrchestratorState) (m : Message)
    (stNew : ProjectStatus)
    (h : alist_find m.project_id
      (handle_status_update env st m).state.project_statuses = some stNew) :
    stNew.current_phase ∈ (["test_preparation", "qa_testing", "architecture_design",
      "development_complete", "qa_review"] : List String)
    ∨ stNew.completion_percentage = 100
    ∨ stNew.completion_percentage =
        ((alist_find m.project_id st.project_statuses).getD
          (default_status m.project_id)).completion_percentage := by
  unfold handle_status_update at h
  cases hfa : m.from_agent <;> simp only [hfa] at h
  case BA =>
    split_ifs at h
    · rw [update_statuses_self] at h
      simp at h
      left
      simp [← h, apply_status_update, pyTruthyStr]
    · rw [update_statuses_self] at h
      simp at h
      left
      simp [← h, apply_status_update, pyTruthyStr]
    · right; right
      rw [h]
      simp
  case ARCHITECT =>
    rw [update_statuses_self] at h
    simp at h
    left
    simp [← h, apply_status_update, pyTruthyStr]
  case DEVELOPER =>
    split_ifs at h
    · rw [update_statuses_self] at h
      simp at h
      left
      simp [← h, apply_status_update, pyTruthyStr]
    · right; right
      rw [h]
      simp
  case TESTER =>
    split_ifs at h
    · right; left
      exact completion_self env st m stNew h
    · rw [update_statuses_self] at h
      simp at h
      left
      simp [← h, apply_status_update, pyTruthyStr]
  case ORCHESTRATOR =>
    right; right
    rw [h]
    simp

theorem handle_error_self (env : Env) (st : OrchestratorState) (m : Message)
    (stNew : ProjectStatus)
    (h : alist_find m.project_id
      (handle_error env st m).state.project_statuses = some stNew) :
    stNew.current_phase = "failed"
    ∨ stNew.completion_percentage =
        ((alist_find m.project_id st.project_statuses).getD
          (default_status m.project_id)).completion_percentage := by
  unfold handle_error attempt_error_recovery at h
  cases hfa : m.from_agent <;> simp only [hfa] at h
  case ORCHESTRATOR =>
    unfold restart_workflow_from_last_stable_state at h
    split at h
    · simp [escalate_error] at h
      rw [update_statuses_self] at h
      simp [update_statuses_self] at h
      left
      simp [← h, apply_status_update, pyTruthyStr]
    · rw [update_statuses_self] at h
      simp at h
      right
      simp [← h, apply_status_update]
  all_goals
    simp [escalate_error] at h
    rw [update_statuses_self] at h
    simp [update_statuses_self] at h
    left
    simp [← h, apply_status_update, pyTruthyStr]

/-- Effect of one processed message on that project's own status entry:
either the step assigned one of the fixed phases of the reset/earlier-phase
family, or it assigned 100 %, or it left the completion percentage as it
was. -/
theorem process_self_cases (env : Env) (st : OrchestratorState) (m : Message)
    (stNew : ProjectStatus)
    (h : alist_find m.project_id
      (process_message env st m).state.project_statuses = some stNew) :
    stNew.current_phase ∈ (["requirements_analysis", "test_preparation", "qa_testing",
      "architecture_design", "development_complete", "qa_review", "failed"] : List String)
    ∨ stNew.completion_percentage = 100
    ∨ stNew.completion_percentage =
        ((alist_find m.project_id st.project_statuses).getD
          (default_status m.project_id)).completion_percentage := by
  unfold process_message at h
  cases htype : m.message_type <;> simp only [htype] at h
  case SPECIFICATION =>
    left
    have := handle_spec_self env _ m stNew h
    simp [this]
  case QUERY =>
    right; right
    have h2 := handle_query_self env _ m stNew h
    exact h2
  case STATUS =>
    rcases handle_status_self env _ m stNew h with h2 | h2 | h2
    · left
      simp at h2
      rcases h2 with h2 | h2 | h2 | h2 | h2 <;> simp [h2]
    · right; left; exact h2
    · right; right; exact h2
  case ERROR =>
    rcases handle_error_self env _ m stNew h with h2 | h2
    · left; simp [h2]
    · right; right; exact h2
  case RESPONSE =>
    right; right
    rw [handle_response_statuses, record_message_statuses] at h
    rw [h]
    simp
  case APPROVAL =>
    right; right
    have h2 : alist_find m.project_id st.project_statuses = some stNew := h
    rw [h2]
    simp
  case ARTIFACT =>
    right; right
    have h2 : alist_find m.project_id st.project_statuses = some stNew := h
    rw [h2]
    simp

/-!  Broker lemmas. -/

theorem publish_message_connected (bs : BrokerSt) (topic : String) (m : Message) :
    (publish_message bs topic m).connected = bs.connected := by
  unfold publish_message
  split <;> rfl

theorem publish_all_queue (ms : List Message) (bs : BrokerSt) (h : bs.connected = true) :
    (publish_all bs ms).message_queue
      = bs.message_queue ++ ms.map (fun m => (agent_topic m.to_agent, m)) := by
  induction ms generalizing bs with
  | nil => simp [publish_all]
  | cons m rest ih =>
      have hc : (publish_message bs (agent_topic m.to_agent) m).connected = true := by
        rw [publish_message_connected, h]
      have hstep : publish_all bs (m :: rest)
          = publish_all (publish_message bs (agent_topic m.to_agent) m) rest := rfl
      rw [hstep, ih _ hc]
      simp [publish_message, h]

theorem find_canonical (a : AgentType) :
    alist_find (agent_topic a) canonical_subscribers = some [a] := by
  cases a <;> rfl

theorem deliver_canonical (a : AgentType) (m : Message) (boxes : Mailboxes)
    (b : AgentType) :
    deliver canonical_subscribers (agent_topic a) m boxes b
      = if b = a then boxes b ++ [m] else boxes b := by
  simp only [deliver, find_canonical a, List.foldl]

theorem drain_delivered (subs : List (String × List AgentType))
    (q : List (String × Message)) (boxes : Mailboxes) :
    (drain_queue subs q boxes).2 = q := by
  induction q generalizing boxes with
  | nil => rfl
  | cons hd rest ih =>
      obtain ⟨t, m⟩ := hd
      simp [drain_queue, ih]

theorem drain_box_canonical (ms : List Message) (boxes : Mailboxes) (t : AgentType) :
    (drain_queue canonical_subscribers
      (ms.map (fun m => (agent_topic m.to_agent, m))) boxes).1 t
      = boxes t ++ ms.filter (fun m => m.to_agent == t) := by
  induction ms generalizing boxes with
  | nil => simp [drain_queue]
  | cons m rest ih =>
      by_cases hb : m.to_agent = t
      · simp [drain_queue, ih, deliver_canonical, hb]
      · have hb2 : ¬t = m.to_agent := fun h2 => hb h2.symm
        simp [drain_queue, ih, deliver_canonical, hb, hb2]

theorem filter_to_map_set_priority (ms : List Message) (p : Priority) (t : AgentType) :
    (ms.map (set_priority p)).filter (fun m => m.to_agent == t)
      = (ms.filter (fun m => m.to_agent == t)).map (set_priority p) := by
  induction ms with
  | nil => rfl
  | cons m rest ih =>
      by_cases hb : m.to_agent = t <;> simp [set_priority, hb, ih]

/-- C4: for every fixed `(from_agent, to_agent)` pair, messages are delivered
to the recipient's mailbox in exactly the order they were published (each
dequeue takes the head of the FIFO queue, so the delivered sequence equals
the published sequence), and the `priority` field never alters this order:
republishing the same batch with every priority overwritten delivers the
same mailbox contents modulo the rewritten priority field. -/
theorem c4_fifo_per_route_priority_ignored (ms : List Message) (f t : AgentType)
    (p : Priority) :
    (drain_queue canonical_subscribers
        (publish_all (broker_connect {}) ms).message_queue empty_boxes).2
      = (publish_all (broker_connect {}) ms).message_queue
    ∧ (drain_queue canonical_subscribers
        (publish_all (broker_connect {}) ms).message_queue empty_boxes).1 t
      = ms.filter (fun m => m.to_agent == t)
    ∧ ((drain_queue canonical_subscribers
        (publish_all (broker_connect {}) ms).message_queue empty_boxes).1 t).filter
          (fun m => m.from_agent == f)
      = ms.filter (fun m => m.to_agent == t && m.from_agent == f)
    ∧ (drain_queue canonical_subscribers
        (publish_all (broker_connect {}) (ms.map (set_priority p))).message_queue
        empty_boxes).1 t
      = ((drain_queue canonical_subscribers
          (publish_all (broker_connect {}) ms).message_queue empty_boxes).1 t).map
            (set_priority p) := by
  have hconn : (broker_connect {}).connected = true := rfl
  have hq := publish_all_queue ms (broker_connect {}) hconn
  have hqp := publish_all_queue (ms.map (set_priority p)) (broker_connect {}) hconn
  have hqueue : (publish_all (broker_connect {}) ms).message_queue
      = ms.map (fun m => (agent_topic m.to_agent, m)) := by
    rw [hq]; rfl
  have hqueueP : (publish_all (broker_connect {}) (ms.map (set_priority p))).message_queue
      = (ms.map (set_priority p)).map (fun m => (agent_topic m.to_agent, m)) := by
    rw [hqp]; rfl
  refine ⟨?_, ?_, ?_, ?_⟩
  · rw [drain_delivered]
  · rw [hqueue, drain_box_canonical]
    rfl
  · rw [hqueue, drain_box_canonical]
    simp only [empty_boxes, List.nil_append, List.filter_filter]
    exact List.filter_congr (fun a _ => Bool.and_comm _ _)
  · rw [hqueue, hqueueP, drain_box_canonical, drain_box_canonical,
      filter_to_map_set_priority]
    rfl

theorem deliver_mem (subs : List (String × List AgentType)) (topic : String)
    (msg x : Message) (boxes : Mailboxes) (a : AgentType)
    (h : x ∈ deliver subs topic msg boxes a) : x ∈ boxes a ∨ x = msg := by
  unfold deliver at h
  rcases hfind : alist_find topic subs with _ | agents
  · rw [hfind] at h
    exact Or.inl h
  · rw [hfind] at h
    clear hfind
    induction agents generalizing boxes with
    | nil => exact Or.inl h
    | cons b rest ih =>
        simp only [List.foldl] at h
        rcases ih _ h with h2 | h2
        · by_cases hb : a = b
          · subst hb
            simp at h2
            rcases h2 with h3 | h3
            · exact Or.inl h3
            · exact Or.inr h3
          · simp [hb] at h2
            exact Or.inl h2
        · exact Or.inr h2

theorem drain_mem (subs : List (String × List AgentType))
    (q : List (String × Message)) (boxes : Mailboxes) (a : AgentType) (x : Message)
    (h : x ∈ (drain_queue subs q boxes).1 a) :
    x ∈ boxes a ∨ x ∈ q.map Prod.snd := by
  induction q generalizing boxes with
  | nil => exact Or.inl h
  | cons hd rest ih =>
      obtain ⟨t, m⟩ := hd
      simp only [drain_queue] at h
      rcases ih _ h with h2 | h2
      · rcases deliver_mem subs t m x boxes a h2 with h3 | h3
        · exact Or.inl h3
        · right; simp [h3]
      · right; simp [h2]

/-- C10: publishing on a broker whose `connected` flag is false returns
normally with the broker state completely unchanged — nothing is enqueued —
and consequently the message is never delivered to any subscriber's mailbox
when the queue is drained (assuming it was not already sitting in the
queue), no matter which subscribers are registered. -/
theorem c10_publish_disconnected (bs : BrokerSt) (topic : String) (m : Message)
    (h : bs.connected = false) (hfresh : m ∉ bs.message_queue.map Prod.snd) :
    publish_message bs topic m = bs
    ∧ ∀ (subs : List (String × List AgentType)) (a : AgentType),
        m ∉ (drain_queue subs (publish_message bs topic m).message_queue
          empty_boxes).1 a := by
  have hpub : publish_message bs topic m = bs := by
    simp [publish_message, h]
  refine ⟨hpub, fun subs a hmem => ?_⟩
  rw [hpub] at hmem
  rcases drain_mem subs bs.message_queue empty_boxes a m hmem with h2 | h2
  · simp [empty_boxes] at h2
  · exact hfresh h2

/-- C1, counterexample: `completion_percentage` is NOT monotonically
non-decreasing outside `failed` / `workflow_restart` steps.  Reachable run:
after the specification for `p1` and a Tester STATUS without signoff the
project sits at 85 %; a subsequent Architect STATUS — a step whose resulting
phase is `architecture_design`, neither `failed` nor `workflow_restart` —
drops it to 30 %. -/
theorem c1_counterexample :
    (alist_find "p1" st_p1_qa_review.project_statuses).map
        ProjectStatus.completion_percentage = some 85
    ∧ (alist_find "p1" st_p1_regressed.project_statuses).map
        ProjectStatus.completion_percentage = some 30
    ∧ (alist_find "p1" st_p1_regressed.project_statuses).map
        ProjectStatus.current_phase = some "architecture_design"
    ∧ (30 : ℚ) < 85
    ∧ "architecture_design" ≠ "failed"
    ∧ "architecture_design" ≠ "workflow_restart" := by
  refine ⟨by decide, by decide, by decide, by norm_num, by decide, by decide⟩

/-- C1 (amended): for a project whose recorded completion percentage is sane
(≤ 100), processing a message can decrease the percentage only on a step
that sets the phase to `failed` or re-enters one of the fixed earlier phases
(`requirements_analysis`, `test_preparation`, `qa_testing`,
`architecture_design`, `development_complete`, `qa_review`) — each status
handler assigns its phase's fixed constant regardless of the prior value.
In particular a `workflow_restart` step never decreases the percentage. -/
theorem c1_completion_decreases_only_on_reset_or_earlier_phase
    (env : Env) (st : OrchestratorState) (m : Message) (pid : String)
    (stOld stNew : ProjectStatus)
    (hOld : alist_find pid st.project_statuses = some stOld)
    (hle : stOld.completion_percentage ≤ 100)
    (hNew : alist_find pid (process_message env st m).state.project_statuses
      = some stNew)
    (hdec : stNew.completion_percentage < stOld.completion_percentage) :
    stNew.current_phase ∈ (["requirements_analysis", "test_preparation",
      "qa_testing", "architecture_design", "development_complete", "qa_review",
      "failed"] : List String) := by
  by_cases hpid : pid = m.project_id
  · subst hpid
    rcases process_self_cases env st m stNew hNew with hc | hc | hc
    · exact hc
    · exfalso
      rw [hc] at hdec
      exact absurd (lt_of_lt_of_le hdec hle) (lt_irrefl _)
    · exfalso
      rw [hOld] at hc
      simp only [Option.getD_some] at hc
      rw [hc] at hdec
      exact absurd hdec (lt_irrefl _)
  · exfalso
    rw [process_statuses_other env st m pid hpid, hOld] at hNew
    have h2 := Option.some.inj hNew
    rw [← h2] at hdec
    exact absurd hdec (lt_irrefl _)

/-- C1 witness: the amended theorem applied to the concrete 85 % → 30 %
regression above. -/
theorem c1_completion_decreases_witness :
    ({ project_id := "p1", current_phase := "architecture_design",
       completion_percentage := 30, active_agents := [.ARCHITECT, .BA],
       issues := [], next_actions := ["BA Agent reviewing architecture design"] } :
      ProjectStatus).current_phase
      ∈ (["requirements_analysis", "test_preparation", "qa_testing",
          "architecture_design", "development_complete", "qa_review",
          "failed"] : List String) :=
  c1_completion_decreases_only_on_reset_or_earlier_phase env0 st_qa_p1
    m_arch_status "p1" qa_status_p1 _ (by decide) (by decide) (by decide)
    (by decide)

theorem process_message_error_dispatch (env : Env) (st : OrchestratorState)
    (m : Message) (htype : m.message_type = .ERROR) :
    process_message env st m = handle_error env (record_message st m) m := by
  unfold process_message
  rw [htype]

theorem process_message_status_dispatch (env : Env) (st : OrchestratorState)
    (m : Message) (htype : m.message_type = .STATUS) :
    process_message env st m = handle_status_update env (record_message st m) m := by
  unfold process_message
  rw [htype]

/-- `_handle_error` for a worker-agent ERROR never consults the project's
current phase: it notifies, re-enters `error_recovery`, dispatches that
agent's recovery strategy — whose send raises `AttributeError`
(`MessageBroker` has no `publish`) — and therefore always escalates back to
`failed`, publishing nothing. -/
theorem handle_error_worker (env : Env) (st : OrchestratorState) (m : Message)
    (hfrom : m.from_agent ≠ .ORCHESTRATOR) :
    handle_error env st m =
      { state := (escalate_error
          (update_project_status st m.project_id (some "error_recovery") none
            none
            (some ["Recovering from " ++ m.from_agent.value ++ " agent error"])
            none)
          m.project_id publish_attribute_error).1,
        sent := [],
        notes := [(m.project_id,
            error_details_text m.project_id m.from_agent.value m.content),
          (m.project_id,
            escalation_text m.project_id publish_attribute_error)] } := by
  unfold handle_error attempt_error_recovery
  cases hfa : m.from_agent
  case ORCHESTRATOR => exact absurd hfa hfrom
  all_goals simp [hfa, escalate_error]

set_option maxRecDepth 10000 in
/-- C2, counterexample: the `failed` transition is NOT once-only and the
error handler does not leave a `failed` project alone.  Concrete run: the
first BA ERROR escalates `p1` to `failed` (the recovery send raises
`AttributeError`, since `MessageBroker` has no `publish`).  Processing the
same ERROR again re-runs the whole policy: the handler first sets the phase
to `error_recovery` (exhibited by the pipeline equation on the final state
and by the intermediate status below), the recovery send raises again, and
`_escalate_error` runs a second time — re-performing the `failed`
transition, appending a duplicate critical issue and re-emitting the
escalation notification.  No recovery SPECIFICATION is sent, but only
because no send can ever succeed. -/
theorem c2_counterexample :
    (alist_find "p1" st_p1_failed.project_statuses).map
        ProjectStatus.current_phase = some "failed"
    ∧ (alist_find "p1" st_p1_failed.project_statuses).map
        ProjectStatus.issues
        = some ["Critical error: " ++ publish_attribute_error]
    ∧ (alist_find "p1" (update_project_status
          (record_message st_p1_failed m_error_ba) "p1" (some "error_recovery")
          none none (some ["Recovering from ba agent error"]) none
          ).project_statuses).map ProjectStatus.current_phase
        = some "error_recovery"
    ∧ (process_message env0 st_p1_failed m_error_ba).state
        = (escalate_error (update_project_status
            (record_message st_p1_failed m_error_ba) "p1"
            (some "error_recovery") none none
            (some ["Recovering from ba agent error"]) none)
            "p1" publish_attribute_error).1
    ∧ (alist_find "p1"
          (process_message env0 st_p1_failed m_error_ba).state.project_statuses).map
        ProjectStatus.issues
        = some ["Critical error: " ++ publish_attribute_error,
                "Critical error: " ++ publish_attribute_error]
    ∧ ("p1", escalation_text "p1" publish_attribute_error)
        ∈ (process_message env0 st_p1_failed m_error_ba).notes
    ∧ (process_message env0 st_p1_failed m_error_ba).sent = [] := by
  refine ⟨by decide, by decide, by decide, by rfl, by rfl, by decide, by rfl⟩

/-- C2 (amended): `_handle_error` never consults the project's phase, and no
recovery SPECIFICATION can ever be sent because every recovery strategy's
`send_message` raises `AttributeError` (`MessageBroker` defines no
`publish`).  For every ERROR from a worker agent on an already-`failed`
project the handler re-runs the full recovery policy: the phase passes
through `error_recovery` mid-handler (the final state is exactly the
escalation of that intermediate state), and `_escalate_error` runs again —
re-performing the `failed` transition, resetting completion to 0, appending
another critical issue and re-notifying the escalation.  The `failed`
transition thus happens once per ERROR message, not exactly once; nothing is
ever published. -/
theorem c2_error_after_failed_retriggers_recovery (env : Env)
    (st : OrchestratorState) (m : Message) (stOld : ProjectStatus)
    (htype : m.message_type = .ERROR)
    (hfrom : m.from_agent ≠ .ORCHESTRATOR)
    (hfailed : alist_find m.project_id st.project_statuses = some stOld)
    (hph : stOld.current_phase = "failed") :
    (process_message env st m).sent = []
    ∧ (process_message env st m).state
        = (escalate_error
            (update_project_status (record_message st m) m.project_id
              (some "error_recovery") none none
              (some ["Recovering from " ++ m.from_agent.value ++ " agent error"])
              none)
            m.project_id publish_attribute_error).1
    ∧ (∃ stMid, alist_find m.project_id
          (update_project_status (record_message st m) m.project_id
            (some "error_recovery") none none
            (some ["Recovering from " ++ m.from_agent.value ++ " agent error"])
            none).project_statuses = some stMid
        ∧ stMid.current_phase = "error_recovery")
    ∧ (∃ stNew, alist_find m.project_id
          (process_message env st m).state.project_statuses = some stNew
        ∧ stNew.current_phase = "failed"
        ∧ stNew.completion_percentage = 0
        ∧ stNew.issues = stOld.issues
            ++ ["Critical error: " ++ publish_attribute_error])
    ∧ (m.project_id, escalation_text m.project_id publish_attribute_error)
        ∈ (process_message env st m).notes := by
  rw [process_message_error_dispatch env st m htype,
    handle_error_worker env (record_message st m) m hfrom]
  refine ⟨rfl, rfl, ?_, ?_, ?_⟩
  · refine ⟨_, update_statuses_self _ _ _ _ _ _ _, ?_⟩
    simp [apply_status_update, pyTruthyStr]
  · unfold escalate_error
    refine ⟨_, update_statuses_self _ _ _ _ _ _ _, ?_, ?_, ?_⟩ <;>
      simp [update_statuses_self, record_message_statuses, hfailed,
        apply_status_update, pyTruthyStr]
  · simp

/-- C2 witness: the amended theorem applied to the already-failed project
`p1` and a fresh BA ERROR. -/
theorem c2_error_after_failed_witness :
    (process_message env0 st_failed_p1 m_error_ba).sent = []
    ∧ (process_message env0 st_failed_p1 m_error_ba).state
        = (escalate_error
            (update_project_status (record_message st_failed_p1 m_error_ba)
              m_error_ba.project_id (some "error_recovery") none none
              (some ["Recovering from " ++ m_error_ba.from_agent.value
                ++ " agent error"]) none)
            m_error_ba.project_id publish_attribute_error).1
    ∧ (∃ stMid, alist_find m_error_ba.project_id
          (update_project_status (record_message st_failed_p1 m_error_ba)
            m_error_ba.project_id (some "error_recovery") none none
            (some ["Recovering from " ++ m_error_ba.from_agent.value
              ++ " agent error"]) none).project_statuses = some stMid
        ∧ stMid.current_phase = "error_recovery")
    ∧ (∃ stNew, alist_find m_error_ba.project_id
          (process_message env0 st_failed_p1 m_error_ba).state.project_statuses
          = some stNew
        ∧ stNew.current_phase = "failed"
        ∧ stNew.completion_percentage = 0
        ∧ stNew.issues = failed_status_p1.issues
            ++ ["Critical error: " ++ publish_attribute_error])
    ∧ (m_error_ba.project_id,
          escalation_text m_error_ba.project_id publish_attribute_error)
        ∈ (process_message env0 st_failed_p1 m_error_ba).notes :=
  c2_error_after_failed_retriggers_recovery env0 st_failed_p1 m_error_ba
    failed_status_p1 rfl (by decide) (by decide) rfl

/-- C10 witness: publishing on the disconnected broker with all subscribers
registered changes nothing and the message is never delivered. -/
theorem c10_publish_disconnected_witness :
    publish_message bs_disconnected "agents/architect" m_c10 = bs_disconnected
    ∧ ∀ (subs : List (String × List AgentType)) (a : AgentType),
        m_c10 ∉ (drain_queue subs
          (publish_message bs_disconnected "agents/architect" m_c10).message_queue
          empty_boxes).1 a :=
  c10_publish_disconnected bs_disconnected "agents/architect" m_c10 rfl
    (by decide)

theorem process_next_task_aux_state (env : AgentEnv) (a : AgentType)
    (q : List Message) :
    (process_next_task_aux env a q).1
      = { status := "idle", current_task := none, task_queue := [] } := by
  induction q with
  | nil => rfl
  | cons m rest ih => simp [process_next_task_aux, ih]

theorem process_next_task_aux_sent (env : AgentEnv) (a : AgentType)
    (q : List Message) : (process_next_task_aux env a q).2 = [] := by
  induction q with
  | nil => rfl
  | cons m rest ih =>
      rcases hh : env.handler_result m with _ | err <;>
        simp [process_next_task_aux, hh, ih]

/-- C5: a handler exception is caught at the loop boundary and the loop does
reset the agent to `idle` and continue with the rest of the queue — but NO
`Message(ERROR)` is ever sent back to the sender: the loop never publishes
anything (`send_error_message` builds the reply and then `send_message`
raises `AttributeError` at `MessageBroker.publish`, which does not exist).
Concretely, with a handler raising `"boom"` and two queued STATUS messages
the loop ends `idle` with an empty queue having published nothing; the reply
it constructed — and would have sent — even carries the prefixed content
`"Error processing your status: boom"`, not the claim's bare
`str(exception)`. -/
theorem c5_no_error_reply_is_published :
    (∀ (env : AgentEnv) (a : AgentType) (st : AgentLoopState),
        (process_next_task env a st).2 = [])
    ∧ process_next_task env_boom .DEVELOPER ⟨"idle", none, [m_c5, m_c5]⟩
        = (⟨"idle", none, []⟩, [])
    ∧ env_boom.handler_result m_c5 = some "boom"
    ∧ (send_error_message .DEVELOPER m_c5 "boom").to_agent = m_c5.from_agent
    ∧ (send_error_message .DEVELOPER m_c5 "boom").content
        = "Error processing your status: boom"
    ∧ (send_error_message .DEVELOPER m_c5 "boom").content ≠ "boom"
    ∧ broker_publish_exists = false := by
  refine ⟨?_, by decide, rfl, by decide, by decide, by decide, rfl⟩
  intro env a st
  rcases st with ⟨s, ct, q⟩
  rcases q with _ | ⟨mm, rest⟩
  · rfl
  · exact process_next_task_aux_sent env a (mm :: rest)

theorem map_history_find_self (st : OrchestratorState) (pid : String)
    (f : Message → Message) :
    (alist_find pid (map_history st pid f).workflow_history).getD []
      = ((alist_find pid st.workflow_history).getD []).map f := by
  unfold map_history
  rcases hfind : alist_find pid st.workflow_history with _ | l <;>
    simp [hfind, alist_find_upsert_self]

/-- C3: `send_user_clarification` can NEVER deliver a clarification: for
every environment, state, project and text it returns `false` with the state
unchanged and nothing sent, because with a pending QUERY the
`send_message` to the requesting agent raises `AttributeError`
(`MessageBroker` defines no `publish`) before the query is marked resolved,
and the method's `except Exception` swallows it.  Concretely, with the two
unresolved queries Q1 (BA) and Q2 (Architect) recorded for `p1` — Q2 being
the latest pending query the method selects — the call returns `false`,
resolves nothing and leaves both queries unresolved, contradicting the
claimed resolve-latest/send/return-true behaviour (which is the method's
evident intent: the failing send sits between selecting the query and the
`resolved` mark). -/
theorem c3_clarification_always_returns_false :
    (∀ (env : Env) (st : OrchestratorState) (pid text : String),
        send_user_clarification env st pid text = (false, st, []))
    ∧ (((alist_find "p1" st_two_queries.workflow_history).getD []).filter
        is_pending_query).getLast? = some q_arch
    ∧ send_user_clarification env0 st_two_queries "p1" "use postgres"
        = (false, st_two_queries, [])
    ∧ q_ba.metadata.resolved = false
    ∧ q_arch.metadata.resolved = false := by
  refine ⟨?_, by decide, by decide, rfl, rfl⟩
  intro env st pid text
  unfold send_user_clarification
  dsimp only
  rcases (((alist_find pid st.workflow_history).getD []).filter
      is_pending_query).getLast? with _ | q <;> rfl

/-- `_handle_tester_status_update` with `qa_signoff` truthy runs
`_handle_project_completion`. -/
theorem handle_status_tester_signoff (env : Env) (st : OrchestratorState)
    (m : Message) (hfrom : m.from_agent = .TESTER)
    (hsig : m.metadata.qa_signoff = true) :
    handle_status_update env st m =
      { state := update_project_status st m.project_id (some "completed")
          (some 100) (some []) (some ["Project completed and ready for deployment"])
          none,
        sent := [],
        notes := [(m.project_id, completion_message_text m.project_id
            (final_project_summary env
              (update_project_status st m.project_id (some "completed") (some 100)
                (some []) (some ["Project completed and ready for deployment"]) none)
              m.project_id)),
          progress_note (update_project_status st m.project_id (some "completed")
            (some 100) (some []) (some ["Project completed and ready for deployment"])
            none) m] } := by
  unfold handle_status_update handle_project_completion
  simp [hfrom, hsig]

/-- `_handle_tester_status_update` with `qa_signoff` falsy unconditionally
sets `qa_review` / 85 % / `[DEVELOPER]`. -/
theorem handle_status_tester_nosignoff (env : Env) (st : OrchestratorState)
    (m : Message) (hfrom : m.from_agent = .TESTER)
    (hsig : m.metadata.qa_signoff = false) :
    handle_status_update env st m =
      { state := update_project_status st m.project_id (some "qa_review") (some 85)
          (some [.DEVELOPER]) (some ["Developer fixing issues identified by QA"])
          none,
        sent := [],
        notes := [progress_note (update_project_status st m.project_id
            (some "qa_review") (some 85) (some [.DEVELOPER])
            (some ["Developer fixing issues identified by QA"]) none) m] } := by
  unfold handle_status_update
  simp [hfrom, hsig]

/-- C6: a Tester STATUS carrying `qa_signoff = true` for a known project
moves that project to phase `completed` with `completion_percentage = 100`
and empty `active_agents`, and a synthesized completion summary is emitted
to the user. -/
theorem c6_qa_signoff_completes_project (env : Env) (st : OrchestratorState)
    (m : Message) (stOld : ProjectStatus)
    (htype : m.message_type = .STATUS)
    (hfrom : m.from_agent = .TESTER)
    (hsig : m.metadata.qa_signoff = true)
    (hknown : alist_find m.project_id st.project_statuses = some stOld) :
    (∃ stNew, alist_find m.project_id
          (process_message env st m).state.project_statuses = some stNew
        ∧ stNew.current_phase = "completed"
        ∧ stNew.completion_percentage = 100
        ∧ stNew.active_agents = [])
    ∧ ∃ summary, (m.project_id, completion_message_text m.project_id summary)
        ∈ (process_message env st m).notes := by
  rw [process_message_status_dispatch env st m htype,
    handle_status_tester_signoff env (record_message st m) m hfrom hsig]
  constructor
  · refine ⟨_, update_statuses_self _ _ _ _ _ _ _, ?_, ?_, ?_⟩ <;>
      simp [apply_status_update, pyTruthyStr]
  · exact ⟨_, List.mem_cons_self _ _⟩

/-- C6 witness: the theorem applied to the known project `p1` parked in
`qa_review` and a concrete signoff STATUS. -/
theorem c6_qa_signoff_witness :
    (∃ stNew, alist_find m_tester_signoff.project_id
          (process_message env0 st_qa_p1 m_tester_signoff).state.project_statuses
          = some stNew
        ∧ stNew.current_phase = "completed"
        ∧ stNew.completion_percentage = 100
        ∧ stNew.active_agents = [])
    ∧ ∃ summary, (m_tester_signoff.project_id,
          completion_message_text m_tester_signoff.project_id summary)
        ∈ (process_message env0 st_qa_p1 m_tester_signoff).notes :=
  c6_qa_signoff_completes_project env0 st_qa_p1 m_tester_signoff qa_status_p1
    rfl rfl rfl (by decide)

/-- C9: a Tester STATUS whose metadata lacks `qa_signoff` (or carries a falsy
value) unconditionally sets that project's status to phase `qa_review`,
`completion_percentage = 85` and `active_agents = [DEVELOPER]`, regardless of
the project's prior phase or percentage (an unknown project is even created
first). -/
theorem c9_tester_no_signoff_forces_qa_review (env : Env)
    (st : OrchestratorState) (m : Message)
    (htype : m.message_type = .STATUS)
    (hfrom : m.from_agent = .TESTER)
    (hsig : m.metadata.qa_signoff = false) :
    ∃ stNew, alist_find m.project_id
        (process_message env st m).state.project_statuses = some stNew
      ∧ stNew.current_phase = "qa_review"
      ∧ stNew.completion_percentage = 85
      ∧ stNew.active_agents = [.DEVELOPER] := by
  rw [process_message_status_dispatch env st m htype,
    handle_status_tester_nosignoff env (record_message st m) m hfrom hsig]
  refine ⟨_, update_statuses_self _ _ _ _ _ _ _, ?_, ?_, ?_⟩ <;>
    simp [apply_status_update, pyTruthyStr]

/-- C9 witness: the theorem applied to the freshly created project (phase
`requirements_analysis`, 0 %), which is still forced to `qa_review` / 85 %. -/
theorem c9_tester_no_signoff_witness :
    ∃ stNew, alist_find m_tester_status.project_id
        (process_message env0 st_p1_created m_tester_status).state.project_statuses
        = some stNew
      ∧ stNew.current_phase = "qa_review"
      ∧ stNew.completion_percentage = 85
      ∧ stNew.active_agents = [.DEVELOPER] :=
  c9_tester_no_signoff_forces_qa_review env0 st_p1_created m_tester_status
    rfl rfl rfl

/-- C7, counterexample: a STATUS for an unknown `project_id` is NOT ignored:
starting from the empty orchestrator state (no status entries at all), an
Architect STATUS for `p1` implicitly creates a `ProjectStatus` entry for
`p1`. -/
theorem c7_counterexample :
    ({} : OrchestratorState).project_statuses = []
    ∧ alist_find "p1"
        (process_message env0 {} m_arch_status).state.project_statuses
      = some { project_id := "p1", current_phase := "architecture_design",
               completion_percentage := 30, active_agents := [.ARCHITECT, .BA],
               issues := [],
               next_actions := ["BA Agent reviewing architecture design"] } := by
  refine ⟨rfl, by decide⟩

/-- C7 (amended): a STATUS from the Architect for an unknown `project_id` is
not ignored — `_update_project_status` first creates the default entry
(phase `unknown`, 0 %) and then applies the architect tuple, so processing
creates a `ProjectStatus` entry (phase `architecture_design`, 30 %,
`[ARCHITECT, BA]`); no other project's entry is created or modified. -/
theorem c7_unknown_project_status_creates_entry (env : Env)
    (st : OrchestratorState) (m : Message)
    (htype : m.message_type = .STATUS)
    (hfrom : m.from_agent = .ARCHITECT)
    (hunknown : alist_find m.project_id st.project_statuses = none) :
    alist_find m.project_id (process_message env st m).state.project_statuses
      = some { project_id := m.project_id,
               current_phase := "architecture_design",
               completion_percentage := 30, active_agents := [.ARCHITECT, .BA],
               issues := [],
               next_actions := ["BA Agent reviewing architecture design"] }
    ∧ ∀ pid2, pid2 ≠ m.project_id →
        alist_find pid2 (process_message env st m).state.project_statuses
          = alist_find pid2 st.project_statuses := by
  constructor
  · rw [process_message_status_dispatch env st m htype]
    unfold handle_status_update
    simp only [hfrom]
    rw [update_statuses_self, record_message_statuses, hunknown]
    simp [apply_status_update, pyTruthyStr, default_status]
  · intro pid2 h2
    exact process_statuses_other env st m pid2 h2

/-- C7 witness: the amended theorem applied to the empty state. -/
theorem c7_unknown_project_witness :
    alist_find m_arch_status.project_id
        (process_message env0 {} m_arch_status).state.project_statuses
      = some { project_id := m_arch_status.project_id,
               current_phase := "architecture_design",
               completion_percentage := 30, active_agents := [.ARCHITECT, .BA],
               issues := [],
               next_actions := ["BA Agent reviewing architecture design"] }
    ∧ ∀ pid2, pid2 ≠ m_arch_status.project_id →
        alist_find pid2 (process_message env0 {} m_arch_status).state.project_statuses
          = alist_find pid2 ({} : OrchestratorState).project_statuses :=
  c7_unknown_project_status_creates_entry env0 {} m_arch_status rfl rfl rfl

theorem record_message_find_self (st : OrchestratorState) (m : Message) :
    alist_find m.project_id (record_message st m).workflow_history
      = some (((alist_find m.project_id st.workflow_history).getD []) ++ [m]) := by
  simp [record_message, alist_find_upsert_self]

theorem record_message_find_other (st : OrchestratorState) (m : Message)
    (pid : String) (h : pid ≠ m.project_id) :
    alist_find pid (record_message st m).workflow_history
      = alist_find pid st.workflow_history := by
  simp [record_message, alist_find_upsert_ne _ _ _ _ h]

theorem map_history_find_other (st : OrchestratorState) (pid pid2 : String)
    (f : Message → Message) (h : pid2 ≠ pid) :
    alist_find pid2 (map_history st pid f).workflow_history
      = alist_find pid2 st.workflow_history := by
  unfold map_history
  split
  · simp [alist_find_upsert_ne _ _ _ _ h]
  · rfl

theorem handle_spec_history (env : Env) (st : OrchestratorState) (m : Message) :
    (handle_user_specification env st m).state.workflow_history
      = st.workflow_history := rfl

theorem handle_status_history (env : Env) (st : OrchestratorState) (m : Message) :
    (handle_status_update env st m).state.workflow_history
      = st.workflow_history := by
  unfold handle_status_update handle_project_completion
  cases m.from_agent <;> dsimp only <;> first | rfl | (split_ifs <;> rfl)

theorem handle_error_history (env : Env) (st : OrchestratorState) (m : Message) :
    (handle_error env st m).state.workflow_history = st.workflow_history := by
  unfold handle_error attempt_error_recovery restart_workflow_from_last_stable_state
    escalate_error
  cases m.from_agent <;> dsimp only <;> first | rfl | (split <;> rfl)

theorem handle_response_history (env : Env) (st : OrchestratorState) (m : Message) :
    (handle_response env st m).state.workflow_history = st.workflow_history := by
  unfold handle_response
  split_ifs <;> rfl

theorem handle_query_history_core (env : Env) (st : OrchestratorState)
    (m : Message) (pid : String) :
    ((alist_find pid (handle_agent_query env st m).state.workflow_history).getD
      []).map message_core
      = ((alist_find pid st.workflow_history).getD []).map message_core := by
  unfold handle_agent_query
  cases hfa : m.from_agent <;> simp only [hfa] <;> rw [update_history]
  case BA =>
    by_cases hp : pid = m.project_id
    · subst hp
      rw [map_history_find_self, List.map_map]
      apply List.map_congr_left
      intro a _
      by_cases hid : a.id = m.id <;>
        simp [hid, message_core, set_pending_clarification, Function.comp]
    · rw [map_history_find_other _ _ _ _ hp]

/-- The state returned by `send_user_clarification` is either unchanged or
the in-place resolution of the latest pending query.  (In the source as
written only the first disjunct is ever realized: the send raises before the
`resolved` mark.) -/
theorem clarify_state_char (env : Env) (st : OrchestratorState)
    (pid2 text : String) :
    (send_user_clarification env st pid2 text).2.1 = st
    ∨ ∃ q : Message, (send_user_clarification env st pid2 text).2.1
        = map_history st pid2
            (fun msg => if msg.id = q.id then mark_resolved msg else msg) := by
  unfold send_user_clarification
  dsimp only
  rcases (((alist_find pid2 st.workflow_history).getD []).filter
      is_pending_query).getLast? with _ | q
  · left
    rfl
  · left
    rfl

/-- C8, counterexample: messages recorded in the workflow history are NOT
immutable: processing a BA QUERY first appends it to the per-project history
and then `_handle_ba_clarification_request` writes `pending_clarification`
and `clarification_type` into the recorded (history-aliased) message's
metadata — the stored entry no longer equals the message as appended. -/
theorem c8_counterexample :
    q_ba.metadata.pending_clarification = false
    ∧ q_ba.metadata.clarification_type = none
    ∧ (alist_find "p1"
          (process_message env0 {} q_ba).state.workflow_history).getD []
        = [set_pending_clarification q_ba]
    ∧ set_pending_clarification q_ba ≠ q_ba
    ∧ (set_pending_clarification q_ba).metadata.pending_clarification = true
    ∧ (set_pending_clarification q_ba).metadata.clarification_type
        = some "requirements" := by
  refine ⟨rfl, rfl, by decide, by decide, rfl, rfl⟩

/-- C8 (amended): the workflow history is append-only as a sequence — no
recorded entry is removed, reordered or replaced, and the
non-metadata fields of every recorded message (id, sender, recipient, type,
content, project, priority) are never modified: processing a message appends
exactly that message to its project's history, and `send_user_clarification`
appends nothing and changes nothing.  Metadata, however, is mutated in place
on recorded messages: `_handle_ba_clarification_request` writes the
clarification-request flags into the recorded QUERY (the `resolved` mark in
`send_user_clarification` is unreachable — its send raises first), so
immutability only holds modulo the metadata dictionary. -/
theorem c8_history_append_only_modulo_metadata (env : Env)
    (st : OrchestratorState) (m : Message) :
    (∀ pid, ((alist_find pid
          (process_message env st m).state.workflow_history).getD []).map
            message_core
        = ((alist_find pid st.workflow_history).getD []).map message_core
          ++ (if pid = m.project_id then [message_core m] else []))
    ∧ ∀ pid pid2 text,
        ((alist_find pid (send_user_clarification env st pid2
            text).2.1.workflow_history).getD []).map message_core
          = ((alist_find pid st.workflow_history).getD []).map message_core := by
  constructor
  · intro pid
    have hrec : ((alist_find pid (record_message st m).workflow_history).getD
          []).map message_core
        = ((alist_find pid st.workflow_history).getD []).map message_core
          ++ (if pid = m.project_id then [message_core m] else []) := by
      by_cases hp : pid = m.project_id
      · subst hp
        rw [record_message_find_self]
        simp
      · rw [record_message_find_other st m pid hp]
        simp [hp]
    unfold process_message
    cases htype : m.message_type <;> simp only [htype]
    case SPECIFICATION => rw [handle_spec_history]; exact hrec
    case QUERY => rw [handle_query_history_core]; exact hrec
    case STATUS => rw [handle_status_history]; exact hrec
    case ERROR => rw [handle_error_history]; exact hrec
    case RESPONSE => rw [handle_response_history]; exact hrec
    case APPROVAL => exact hrec
    case ARTIFACT => exact hrec
  · intro pid pid2 text
    rcases clarify_state_char env st pid2 text with hchar | ⟨q, hchar⟩
    · rw [hchar]
    · rw [hchar]
      by_cases hp : pid = pid2
      · subst hp
        rw [map_history_find_self, List.map_map]
        apply List.map_congr_left
        intro a _
        by_cases hid : a.id = q.id <;>
          simp [hid, message_core, mark_resolved, Function.comp]
      · rw [map_history_find_other _ _ _ _ hp]
